import Mathlib

set_option maxRecDepth 10000

namespace Ratlab

/-! Shallow embedding of the tool-dispatch core of the repository
(`src/codex.py` and `src/tools/docker_utils.py`).

JSON values carried through the dispatcher are modelled by `PyVal`
(JSON numbers are modelled as integers; floating point is not exercised
by any claim).  External collaborators (the `subprocess` module, the
`requests`/`bs4` HTTP pipeline, `webbrowser`, the OpenAI and Hugging Face
clients, the filesystem and `json.loads`) are supplied by an `Env` record;
repository-owned logic is translated line by line from the source.
Side effects are recorded as an explicit `Effect` trace, and Python
exceptions are modelled with `Except PyErr`. -/

/-- A JSON-like Python value as produced by `json.loads`. -/
inductive PyVal : Type
  | null
  | bool (b : Bool)
  | num (n : Int)
  | str (s : String)
  | list (xs : List PyVal)
  | dict (kvs : List (String × PyVal))

/-- A Python dict with string keys, in insertion order (the shape every
tool handler returns). -/
abbrev PyDict := List (String × PyVal)

/-- Keyword arguments passed to a handler (`tool_func(**params)`). -/
abbrev Kwargs := List (String × PyVal)

/-- The Python exceptions the embedded code can raise. -/
inductive PyErr : Type
  | typeError (msg : String)
  | valueError (msg : String)
  | keyError (msg : String)
  | attributeError (msg : String)
  | fileNotFoundError (msg : String)
  | calledProcessError (returncode : Int) (stdout stderr : String)
  | jsonDecodeError (msg : String)
  | oserror (msg : String)

/-- `str(e)` for an exception, used where the source interpolates a caught
exception into a message.  The exact renderings of CPython are abbreviated
to the carried message. -/
def pyErrStr : PyErr → String
  | PyErr.typeError m => m
  | PyErr.valueError m => m
  | PyErr.keyError m => m
  | PyErr.attributeError m => m
  | PyErr.fileNotFoundError m => m
  | PyErr.calledProcessError code _ _ =>
      "Command returned non-zero exit status " ++ toString code
  | PyErr.jsonDecodeError m => m
  | PyErr.oserror m => m

/-- One observable external action attempted by a handler. -/
inductive Effect : Type
  | spawn (argv : List String) (cwd : Option String)
  | shell (cmd : String)
  | httpGet (url : String)
  | browserOpen (url : String)
  | fsWrite (path content : String)
  | fsMkdirParents (path : String)
  | fsMakedirs (path : String)
  | fsUnlink (path : String)
  | fsRmtree (path : String)
  | fsCopy (src dst : String)
  | openaiChat
  | hfCall (action : String)

/-- Result of `subprocess.run(..., capture_output=True, text=True)`. -/
structure ProcResult : Type where
  returncode : Int
  stdout : String
  stderr : String

/-- The visible text and title extracted from an HTTP response by the
`requests` + `BeautifulSoup` pipeline (external to the repository). -/
structure FetchPage : Type where
  text : String
  title : Option String

/-- The external world: every library/OS boundary the handlers cross. -/
structure Env : Type where
  /-- `json.loads`; an `error` is a `json.JSONDecodeError`. -/
  jsonLoads : String → Except String PyVal
  /-- `subprocess.run(argv, ...)`; an `error` models e.g. `FileNotFoundError`. -/
  runProc : List String → Except PyErr ProcResult
  /-- `subprocess.run(cmd, shell=True, ...)`. -/
  runShell : String → Except PyErr ProcResult
  /-- `requests.get` followed by BeautifulSoup text extraction. -/
  fetch : String → Except String FetchPage
  /-- `openai.chat.completions.create`: system message and user content to
  the returned completion text; an `error` is a raised API exception. -/
  chatComplete : String → PyVal → Except String String
  /-- whether `huggingface_hub` can be imported. -/
  hfAvailable : Bool
  /-- `HfApi().list_models(filter=task, search=model_id, limit=5)`. -/
  hfSearch : PyVal → PyVal → Except String (List String)
  /-- `snapshot_download(repo_id, local_dir)`, returning the path. -/
  hfDownload : String → Except String String
  /-- `InferenceClient(model)(inputs)`. -/
  hfInference : String → PyVal → Except String PyVal
  /-- `Path(p).read_text()`; an `error` carries `str(e)`. -/
  readText : String → Except String String
  /-- `Path(p).write_text(c)`. -/
  writeText : String → String → Except String Unit
  /-- `Path(p).mkdir(parents=True, exist_ok=True)`. -/
  mkdirParents : String → Except String Unit
  /-- `[str(p) for p in Path(path).iterdir()]`. -/
  iterdir : String → Except String (List String)
  /-- `shutil.copy2(src, dst)`. -/
  copy2 : String → String → Except String Unit
  /-- `Path(p).unlink()`. -/
  unlink : String → Except String Unit
  /-- `shutil.rmtree(p)`. -/
  rmtree : String → Except String Unit
  /-- `Path(p).is_file()`. -/
  isFile : String → Bool
  /-- `Path(p).is_dir()`. -/
  isDir : String → Bool
  /-- `Path(p).exists()`. -/
  pathExists : String → Bool
  /-- `Path(p).parent`, as a string. -/
  parent : String → String
  /-- `re.findall` of fenced code block bodies in a model completion
  (used by `code_generation`). -/
  extractCodeBlocks : String → List String
  /-- `self.workspace_path`. -/
  workspacePath : String

/-- A computation that may raise a Python exception and records the
external actions attempted along the way. -/
def EffM (α : Type) : Type := Except PyErr α × List Effect

/-- Return without effects. -/
def retE {α : Type} (a : α) : EffM α := (Except.ok a, [])

/-- Raise an exception (no effect attempted at the raise itself). -/
def throwE {α : Type} (e : PyErr) : EffM α := (Except.error e, [])

/-- Record one attempted external action. -/
def emit (e : Effect) : EffM Unit := (Except.ok (), [e])

/-- Lift a pure, effect-free fallible step. -/
def toEffM {α : Type} (x : Except PyErr α) : EffM α := (x, [])

/-- Sequencing: effects accumulate; an exception short-circuits. -/
def eSeq {α β : Type} (x : EffM α) (f : α → EffM β) : EffM β :=
  match x with
  | (Except.error e, effs) => (Except.error e, effs)
  | (Except.ok a, effs) =>
    match f a with
    | (r, effs2) => (r, effs ++ effs2)

/-! ## Python semantics helpers -/

/-- Python truthiness of a JSON value (`if x:`). -/
def pyTruthy : PyVal → Bool
  | PyVal.null => false
  | PyVal.bool b => b
  | PyVal.num n => n != 0
  | PyVal.str s => s != ""
  | PyVal.list xs => !xs.isEmpty
  | PyVal.dict kvs => !kvs.isEmpty

/-- Python `a or b` on values. -/
def pyOr (a b : PyVal) : PyVal := if pyTruthy a then a else b

/-- Python `v == "lit"` for a string literal (a non-string value compares
unequal; the numeric/bool cross-type equalities of Python are not
exercised against string literals). -/
def pyEqStr (v : PyVal) (s : String) : Bool :=
  match v with
  | PyVal.str t => t == s
  | _ => false

mutual

/-- Python `==` between two JSON values.  Python dict equality is
order-insensitive; this model compares dicts in order, which is only ever
used on values that are not both dicts in the embedded code. -/
def pyEq : PyVal → PyVal → Bool
  | PyVal.null, PyVal.null => true
  | PyVal.bool a, PyVal.bool b => a == b
  | PyVal.num a, PyVal.num b => a == b
  | PyVal.str a, PyVal.str b => a == b
  | PyVal.list a, PyVal.list b => pyEqList a b
  | PyVal.dict a, PyVal.dict b => pyEqDict a b
  | _, _ => false

/-- Elementwise Python `==` on lists. -/
def pyEqList : List PyVal → List PyVal → Bool
  | [], [] => true
  | x :: xs, y :: ys => pyEq x y && pyEqList xs ys
  | _, _ => false

/-- Python `==` on dict item lists (see `pyEq`). -/
def pyEqDict : List (String × PyVal) → List (String × PyVal) → Bool
  | [], [] => true
  | (k1, v1) :: xs, (k2, v2) :: ys => k1 == k2 && pyEq v1 v2 && pyEqDict xs ys
  | _, _ => false

end

/-- Python `str(x)`, as used in f-strings.  Scalars are rendered as
CPython does; the container renderings are abbreviated (no claim
interpolates a container). -/
def pyStrOf : PyVal → String
  | PyVal.str s => s
  | PyVal.num n => toString n
  | PyVal.bool true => "True"
  | PyVal.bool false => "False"
  | PyVal.null => "None"
  | PyVal.list _ => "[...]"
  | PyVal.dict _ => "\x7b...\x7d"

/-- First binding of a key in a dict item list. -/
def lookupKV (kvs : List (String × PyVal)) (k : String) : Option PyVal :=
  (kvs.find? (fun kv => kv.1 == k)).map (fun kv => kv.2)

/-- Python `d.get(k, default)` on a value known to be a dict at that
program point (the default is returned on a non-dict, which is unreachable
where this helper is used). -/
def dictGetD (v : PyVal) (k : String) (d : PyVal) : PyVal :=
  match v with
  | PyVal.dict kvs => (lookupKV kvs k).getD d
  | _ => d

/-- Python `v.get(k, default)` on an arbitrary value: a non-dict has no
`get` attribute and raises `AttributeError`. -/
def pyAttrGetD (v : PyVal) (k : String) (d : PyVal) : Except PyErr PyVal :=
  match v with
  | PyVal.dict kvs => Except.ok ((lookupKV kvs k).getD d)
  | _ => Except.error (PyErr.attributeError "object has no attribute get")

/-- Substring containment on character lists (Python `needle in hay`). -/
def listContainsSub (hay needle : List Char) : Bool :=
  match hay with
  | [] => needle.isEmpty
  | _ :: t => needle.isPrefixOf hay || listContainsSub t needle

/-- Python `needle in hay` for strings. -/
def strContainsSub (hay needle : String) : Bool :=
  listContainsSub hay.data needle.data

/-- Python `needle in v` for a string needle against a JSON value:
key membership for dicts, element equality for lists, substring test for
strings, and a `TypeError` for non-iterable scalars. -/
def pyIn (needle : String) (v : PyVal) : Except PyErr Bool :=
  match v with
  | PyVal.dict kvs => Except.ok (lookupKV kvs needle).isSome
  | PyVal.list xs =>
      Except.ok (xs.any (fun x => match x with
        | PyVal.str s => s == needle
        | _ => false))
  | PyVal.str s => Except.ok (strContainsSub s needle)
  | PyVal.num _ => Except.error (PyErr.typeError "argument of type int is not iterable")
  | PyVal.bool _ => Except.error (PyErr.typeError "argument of type bool is not iterable")
  | PyVal.null => Except.error (PyErr.typeError "argument of type NoneType is not iterable")

/-- Python `v[k]` for a string key: dict lookup, `TypeError` otherwise. -/
def pyIndex (v : PyVal) (k : String) : Except PyErr PyVal :=
  match v with
  | PyVal.dict kvs =>
    match lookupKV kvs k with
    | some x => Except.ok x
    | none => Except.error (PyErr.keyError k)
  | PyVal.str _ => Except.error (PyErr.typeError "string indices must be integers")
  | PyVal.list _ => Except.error (PyErr.typeError "list indices must be integers")
  | _ => Except.error (PyErr.typeError "object is not subscriptable")

/-- Keyword lookup in a kwargs mapping. -/
def argLookup (kwargs : Kwargs) (name : String) : Option PyVal :=
  lookupKV kwargs name

/-- Keyword lookup with a default (a declared parameter default). -/
def argGetD (kwargs : Kwargs) (name : String) (d : PyVal) : PyVal :=
  (argLookup kwargs name).getD d

/-- All elements of a command list that reach `subprocess.run` must be
strings; a non-string raises `TypeError` before any process is spawned. -/
def allStringArgs : List PyVal → Option (List String)
  | [] => some []
  | PyVal.str s :: rest => (allStringArgs rest).map (fun l => s :: l)
  | _ => none

/-- Fuel-indexed splitting of a character list on a non-empty separator
(the fuel is the list length, so it never runs out). -/
def splitAuxF (sep : List Char) : Nat → List Char → List (List Char)
  | _, [] => [[]]
  | 0, l => [l]
  | Nat.succ f, c :: rest =>
    if sep.isPrefixOf (c :: rest) then
      [] :: splitAuxF sep f ((c :: rest).drop sep.length)
    else
      match splitAuxF sep f rest with
      | [] => [[c]]
      | p :: ps => (c :: p) :: ps

/-- Python `s.split(sep)` for a non-empty separator. -/
def pySplit (s sep : String) : List String :=
  (splitAuxF sep.data s.data.length s.data).map String.mk

/-- Python `s.strip()`: whitespace removed from both ends. -/
def pyStrip (s : String) : String :=
  String.mk (((s.data.dropWhile Char.isWhitespace).reverse.dropWhile Char.isWhitespace).reverse)

/-- Python tuple unpacking `a, b = s.split(sep)`: exactly two pieces or a
`ValueError`. -/
def unpack2 (s sep : String) : Except PyErr (String × String) :=
  match pySplit s sep with
  | [a, b] => Except.ok (a, b)
  | parts =>
      Except.error (PyErr.valueError
        (if 2 < parts.length then "too many values to unpack (expected 2)"
         else "not enough values to unpack (expected 2, got 1)"))

/-- Python dict assignment `d[k] = v` on an insertion-ordered mapping:
a fresh key appends, an existing key keeps its position and updates. -/
def dictInsert (m : List (String × String)) (k v : String) : List (String × String) :=
  if m.any (fun kv => kv.1 == k) then
    m.map (fun kv => if kv.1 == k then (k, v) else kv)
  else m ++ [(k, v)]

/-- Python iteration `for x in v`: list elements, string characters,
dict keys; a `TypeError` for non-iterable scalars. -/
def pyIterate (v : PyVal) : Except PyErr (List PyVal) :=
  match v with
  | PyVal.list xs => Except.ok xs
  | PyVal.str s => Except.ok (s.data.map (fun c => PyVal.str (String.mk [c])))
  | PyVal.dict kvs => Except.ok (kvs.map (fun kv => PyVal.str kv.1))
  | _ => Except.error (PyErr.typeError "object is not iterable")

/-- Python `v is None`. -/
def isNullV : PyVal → Bool
  | PyVal.null => true
  | _ => false

/-- The `{"status": "error", "message": m}` dict every handler uses for
failures. -/
def errDict (m : String) : PyDict :=
  [("status", PyVal.str "error"), ("message", PyVal.str m)]

/-- `subprocess.run(argv, capture_output=True, text=True, check=True)` for
a command whose elements are string literals in the source: record the
spawn attempt, surface a spawn failure (e.g. `FileNotFoundError`), and
raise `CalledProcessError` on a non-zero exit. -/
def runCheckS (env : Env) (argv : List String) (cwd : Option String) : EffM ProcResult :=
  eSeq (emit (Effect.spawn argv cwd)) (fun _ =>
    match env.runProc argv with
    | Except.error e => throwE e
    | Except.ok r =>
      if r.returncode == 0 then retE r
      else throwE (PyErr.calledProcessError r.returncode r.stdout r.stderr))

/-- `subprocess.run` for a dynamically built command: every element (and
the working directory, when given) must be a string, checked before any
process is spawned. -/
def runCheck (env : Env) (cmd : List PyVal) (cwd : Option PyVal) : EffM ProcResult :=
  match allStringArgs cmd with
  | none => throwE (PyErr.typeError "expected str, bytes or os.PathLike object")
  | some argv =>
    match cwd with
    | none => runCheckS env argv none
    | some (PyVal.str c) => runCheckS env argv (some c)
    | some _ => throwE (PyErr.typeError "expected str, bytes or os.PathLike object")

/-! ## Tool handlers (`src/codex.py`, class `Codex`)

Each handler's body is translated statement by statement.  The enclosing
`try`/`except` clauses of the source become explicit wrappers. -/

/-- `except Exception as e: return {"status": "error", "message": str(e)}`. -/
def catchAllE (x : EffM PyDict) : EffM PyDict :=
  match x with
  | (Except.error e, effs) => (Except.ok (errDict (pyErrStr e)), effs)
  | ok => ok

/-- `Codex.shell_command` (codex.py lines 97-104).  Its `try` catches only
`subprocess.CalledProcessError`; a non-string `command` raises a
`TypeError` that escapes the handler, before any process is spawned. -/
def shell_command (env : Env) (command : PyVal) : EffM PyDict :=
  match command with
  | PyVal.str c =>
    eSeq (emit (Effect.shell c)) (fun _ =>
      match env.runShell c with
      | Except.error e => throwE e
      | Except.ok r =>
        if r.returncode == 0 then
          retE [("status", PyVal.str "success"),
                ("stdout", PyVal.str r.stdout), ("stderr", PyVal.str r.stderr)]
        else
          retE [("status", PyVal.str "error"),
                ("stdout", PyVal.str r.stdout), ("stderr", PyVal.str r.stderr),
                ("code", PyVal.num r.returncode)])
  | _ => throwE (PyErr.typeError "expected str, bytes or os.PathLike object")

/-- `Codex.file_operations` (codex.py lines 106-149).  `Path(path)` is
built before any branch, so a non-string path raises out of the handler;
each operation branch has its own `try`/`except Exception`. -/
def file_operations (env : Env) (operation path content : PyVal) : EffM PyDict :=
  match path with
  | PyVal.str p =>
    if pyEqStr operation "read" then
      match env.readText p with
      | Except.ok c => retE [("status", PyVal.str "success"), ("content", PyVal.str c)]
      | Except.error m => retE (errDict m)
    else if pyEqStr operation "write" then
      eSeq (emit (Effect.fsMkdirParents (env.parent p))) (fun _ =>
        match env.mkdirParents (env.parent p) with
        | Except.error m => retE (errDict m)
        | Except.ok _ =>
          match content with
          | PyVal.str c =>
            eSeq (emit (Effect.fsWrite p c)) (fun _ =>
              match env.writeText p c with
              | Except.ok _ => retE [("status", PyVal.str "success")]
              | Except.error m => retE (errDict m))
          | _ => retE (errDict "data must be str"))
    else if pyEqStr operation "list" then
      match env.iterdir p with
      | Except.ok files =>
          retE [("status", PyVal.str "success"),
                ("files", PyVal.list (files.map PyVal.str))]
      | Except.error m => retE (errDict m)
    else if pyEqStr operation "copy" then
      match content with
      | PyVal.str d =>
        eSeq (emit (Effect.fsCopy p d)) (fun _ =>
          match env.copy2 p d with
          | Except.ok _ => retE [("status", PyVal.str "success")]
          | Except.error m => retE (errDict m))
      | _ => retE (errDict "expected str, bytes or os.PathLike object")
    else if pyEqStr operation "delete" then
      if env.isFile p then
        eSeq (emit (Effect.fsUnlink p)) (fun _ =>
          match env.unlink p with
          | Except.ok _ => retE [("status", PyVal.str "success")]
          | Except.error m => retE (errDict m))
      else if env.isDir p then
        eSeq (emit (Effect.fsRmtree p)) (fun _ =>
          match env.rmtree p with
          | Except.ok _ => retE [("status", PyVal.str "success")]
          | Except.error m => retE (errDict m))
      else retE [("status", PyVal.str "success")]
    else retE (errDict "Unknown operation")
  | _ => throwE (PyErr.typeError "argument should be a str or an os.PathLike object")

/-- `Codex.search_docs` (codex.py lines 151-160): open a browser on a
Google query; a non-string query has no `.replace` and the
`AttributeError` is caught by the handler's `except Exception`. -/
def search_docs (env : Env) (query : PyVal) : EffM PyDict :=
  catchAllE (
    match query with
    | PyVal.str q =>
      eSeq (emit (Effect.browserOpen
          ("https://www.google.com/search?q=" ++ q.replace " " "+"))) (fun _ =>
        retE [("status", PyVal.str "success"),
              ("message", PyVal.str ("Opened search results for: " ++ q))])
    | _ => throwE (PyErr.attributeError "object has no attribute replace"))

/-- `Codex.code_completion` (codex.py lines 162-174). -/
def code_completion (env : Env) (code language : PyVal) : EffM PyDict :=
  catchAllE (
    eSeq (emit Effect.openaiChat) (fun _ =>
      match env.chatComplete
          ("You are an expert " ++ pyStrOf language ++
           " programmer. Complete the following code.") code with
      | Except.ok c =>
          retE [("status", PyVal.str "success"), ("completion", PyVal.str c)]
      | Except.error m => throwE (PyErr.oserror m)))

/-- `Codex.code_generation` (codex.py lines 176-203): generate code, pull
fenced blocks out of the completion, optionally save to a file. -/
def code_generation (env : Env) (description language file_path : PyVal) : EffM PyDict :=
  catchAllE (
    eSeq (emit Effect.openaiChat) (fun _ =>
      match env.chatComplete
          ("You are an expert " ++ pyStrOf language ++
           " programmer. Write complete, working code based on the following description. Include detailed comments.")
          description with
      | Except.error m => throwE (PyErr.oserror m)
      | Except.ok c0 =>
        let c :=
          if strContainsSub c0 "```" then
            match env.extractCodeBlocks c0 with
            | [] => c0
            | ms => String.intercalate "\n" ms
          else c0
        if pyTruthy file_path then
          match file_path with
          | PyVal.str fp =>
            eSeq (emit (Effect.fsWrite fp c)) (fun _ =>
              match env.writeText fp c with
              | Except.ok _ =>
                  retE [("status", PyVal.str "success"), ("code", PyVal.str c),
                        ("message", PyVal.str ("Code saved to " ++ fp))]
              | Except.error m => throwE (PyErr.oserror m))
          | _ => throwE (PyErr.typeError "argument should be a str or an os.PathLike object")
        else retE [("status", PyVal.str "success"), ("code", PyVal.str c)]))

/-- `Codex.web_browse` (codex.py lines 205-230): open a URL, or fetch it
and return the extracted text, truncated past 5000 characters with an
explicit marker. -/
def web_browse (env : Env) (url action : PyVal) : EffM PyDict :=
  catchAllE (
    if pyEqStr action "open" then
      match url with
      | PyVal.str u =>
        eSeq (emit (Effect.browserOpen u)) (fun _ =>
          retE [("status", PyVal.str "success"),
                ("message", PyVal.str ("Opened " ++ u ++ " in browser"))])
      | _ => throwE (PyErr.typeError "url must be a string")
    else if pyEqStr action "fetch" then
      match url with
      | PyVal.str u =>
        eSeq (emit (Effect.httpGet u)) (fun _ =>
          match env.fetch u with
          | Except.error m => throwE (PyErr.oserror m)
          | Except.ok page =>
            let text :=
              if page.text.length > 5000 then
                page.text.take 5000 ++ "... [content truncated]"
              else page.text
            retE [("status", PyVal.str "success"), ("content", PyVal.str text),
                  ("title", PyVal.str (page.title.getD ""))])
      | _ => throwE (PyErr.typeError "url must be a string")
    else retE (errDict "Unknown action"))

/-- `Codex.vscode` (codex.py lines 232-255): launch the `code` command;
a missing binary (`FileNotFoundError`) gets a dedicated message. -/
def vscode (env : Env) (path new_window : PyVal) : EffM PyDict :=
  let command0 : List String := ["code"]
  let command1 := if pyTruthy new_window then command0 ++ ["--new-window"] else command0
  let launch : EffM PyDict :=
    match path with
    | PyVal.null =>
      eSeq (runCheckS env (command1 ++ [env.workspacePath]) none) (fun _ =>
        retE [("status", PyVal.str "success"),
              ("message", PyVal.str ("Opened VS Code with path: " ++
                pyStrOf (pyOr path (PyVal.str env.workspacePath))))])
    | PyVal.str p =>
      if env.pathExists p then
        eSeq (runCheckS env (command1 ++ [p]) none) (fun _ =>
          retE [("status", PyVal.str "success"),
                ("message", PyVal.str ("Opened VS Code with path: " ++
                  pyStrOf (pyOr path (PyVal.str env.workspacePath))))])
      else retE (errDict ("Path does not exist: " ++ p))
    | _ => throwE (PyErr.typeError "argument should be a str or an os.PathLike object")
  match launch with
  | (Except.error (PyErr.fileNotFoundError _), effs) =>
      (Except.ok (errDict
        "VS Code command line tools not found. Try installing: brew install --cask visual-studio-code"), effs)
  | (Except.error e, effs) => (Except.ok (errDict (pyErrStr e)), effs)
  | ok => ok

/-- The `except` ladder of `Codex.github_operations`: `CalledProcessError`
first, then any exception. -/
def githubWrap (x : EffM PyDict) : EffM PyDict :=
  match x with
  | (Except.error (PyErr.calledProcessError _ _ stderr), effs) =>
      (Except.ok (errDict ("Git error: " ++ stderr)), effs)
  | (Except.error e, effs) => (Except.ok (errDict (pyErrStr e)), effs)
  | ok => ok

/-- `Codex.github_operations` (codex.py lines 257-326). -/
def github_operations (env : Env) (action repo_path remote_url branch commit_message : PyVal) :
    EffM PyDict :=
  githubWrap (
    if pyEqStr action "init" then
      eSeq (runCheck env [PyVal.str "git", PyVal.str "init"]
              (some (pyOr repo_path (PyVal.str env.workspacePath)))) (fun r =>
        retE [("status", PyVal.str "success"),
              ("message", PyVal.str ("Initialized git repository: " ++ r.stdout))])
    else if pyEqStr action "clone" then
      if !pyTruthy remote_url then
        retE (errDict "Remote URL is required for clone action")
      else
        eSeq (runCheck env [PyVal.str "git", PyVal.str "clone", remote_url,
                pyOr repo_path (PyVal.str ".")] none) (fun r =>
          retE [("status", PyVal.str "success"),
                ("message", PyVal.str ("Cloned repository: " ++ r.stdout))])
    else if pyEqStr action "add" then
      eSeq (runCheck env [PyVal.str "git", PyVal.str "add", PyVal.str "."]
              (some (pyOr repo_path (PyVal.str env.workspacePath)))) (fun _ =>
        retE [("status", PyVal.str "success"),
              ("message", PyVal.str "Added files to git staging")])
    else if pyEqStr action "commit" then
      if !pyTruthy commit_message then
        retE (errDict "Commit message is required")
      else
        eSeq (runCheck env [PyVal.str "git", PyVal.str "commit", PyVal.str "-m", commit_message]
                (some (pyOr repo_path (PyVal.str env.workspacePath)))) (fun r =>
          retE [("status", PyVal.str "success"),
                ("message", PyVal.str ("Committed changes: " ++ r.stdout))])
    else if pyEqStr action "push" then
      let cmd := [PyVal.str "git", PyVal.str "push"] ++
        (if pyTruthy remote_url then [remote_url] else []) ++
        (if pyTruthy branch then [branch] else [])
      eSeq (runCheck env cmd (some (pyOr repo_path (PyVal.str env.workspacePath)))) (fun r =>
        retE [("status", PyVal.str "success"),
              ("message", PyVal.str ("Pushed changes: " ++ r.stdout))])
    else if pyEqStr action "pull" then
      let cmd := [PyVal.str "git", PyVal.str "pull"] ++
        (if pyTruthy remote_url then [remote_url] else []) ++
        (if pyTruthy branch then [branch] else [])
      eSeq (runCheck env cmd (some (pyOr repo_path (PyVal.str env.workspacePath)))) (fun r =>
        retE [("status", PyVal.str "success"),
              ("message", PyVal.str ("Pulled changes: " ++ r.stdout))])
    else if pyEqStr action "status" then
      eSeq (runCheck env [PyVal.str "git", PyVal.str "status"]
              (some (pyOr repo_path (PyVal.str env.workspacePath)))) (fun r =>
        retE [("status", PyVal.str "success"), ("output", PyVal.str r.stdout)])
    else retE (errDict ("Unknown git action: " ++ pyStrOf action)))

/-- `Codex.huggingface_operations` (codex.py lines 328-367). -/
def huggingface_operations (env : Env) (action model_id task inputs : PyVal) : EffM PyDict :=
  catchAllE (
    if !env.hfAvailable then
      retE (errDict "huggingface_hub not installed. Install with: pip install huggingface_hub")
    else if pyEqStr action "search" then
      eSeq (emit (Effect.hfCall "search")) (fun _ =>
        match env.hfSearch task model_id with
        | Except.ok ids =>
            retE [("status", PyVal.str "success"),
                  ("models", PyVal.list (ids.map PyVal.str))]
        | Except.error m => throwE (PyErr.oserror m))
    else if pyEqStr action "download" then
      if !pyTruthy model_id then
        retE (errDict "Model ID is required for download action")
      else
        match model_id with
        | PyVal.str mid =>
          let dp := env.workspacePath ++ "/models/" ++ mid.replace "/" "_"
          eSeq (emit (Effect.fsMakedirs dp)) (fun _ =>
            eSeq (emit (Effect.hfCall "download")) (fun _ =>
              match env.hfDownload mid with
              | Except.ok p => retE [("status", PyVal.str "success"), ("path", PyVal.str p)]
              | Except.error m => throwE (PyErr.oserror m)))
        | _ => throwE (PyErr.attributeError "object has no attribute replace")
    else if pyEqStr action "inference" then
      if !pyTruthy model_id || isNullV inputs then
        retE (errDict "Model ID and inputs are required for inference")
      else
        match model_id with
        | PyVal.str mid =>
          eSeq (emit (Effect.hfCall "inference")) (fun _ =>
            match env.hfInference mid inputs with
            | Except.ok r => retE [("status", PyVal.str "success"), ("result", r)]
            | Except.error m => throwE (PyErr.oserror m))
        | _ => throwE (PyErr.typeError "model must be a string")
    else retE (errDict ("Unknown Hugging Face action: " ++ pyStrOf action)))

/-- The `except` ladder of `Codex.docker_operations`. -/
def dockerWrap (x : EffM PyDict) : EffM PyDict :=
  match x with
  | (Except.error (PyErr.calledProcessError _ _ stderr), effs) =>
      (Except.ok (errDict ("Docker error: " ++ stderr)), effs)
  | (Except.error e, effs) => (Except.ok (errDict (pyErrStr e)), effs)
  | ok => ok

/-- The `-p`/`-e`/`--name`/image/command assembly of the `run` action
(codex.py lines 387-408), producing the final argv. -/
def dockerRunCmd (container image ports penv command : PyVal) : Except PyErr (List PyVal) :=
  let cmd0 : List PyVal := [PyVal.str "docker", PyVal.str "run", PyVal.str "-d"]
  match (if pyTruthy ports then pyIterate ports else Except.ok []) with
  | Except.error e => Except.error e
  | Except.ok portList =>
    let cmd1 := cmd0 ++ portList.flatMap (fun pm => [PyVal.str "-p", pm])
    match (if pyTruthy penv then
             match penv with
             | PyVal.dict kvs => Except.ok kvs
             | _ => Except.error (PyErr.attributeError "object has no attribute items")
           else Except.ok []) with
    | Except.error e => Except.error e
    | Except.ok envItems =>
      let cmd2 := cmd1 ++ envItems.flatMap
        (fun kv => [PyVal.str "-e", PyVal.str (kv.1 ++ "=" ++ pyStrOf kv.2)])
      let cmd3 := if pyTruthy container then cmd2 ++ [PyVal.str "--name", container] else cmd2
      let cmd4 := cmd3 ++ [image]
      let cmd5 :=
        if pyTruthy command then
          match command with
          | PyVal.list xs => cmd4 ++ xs
          | c => cmd4 ++ [c]
        else cmd4
      Except.ok cmd5

/-- `Codex.docker_operations` (codex.py lines 369-442). -/
def docker_operations (env : Env) (action container image ports penv command : PyVal) :
    EffM PyDict :=
  dockerWrap (
    if pyEqStr action "ps" then
      eSeq (runCheckS env ["docker", "ps", "-a"] none) (fun r =>
        retE [("status", PyVal.str "success"), ("output", PyVal.str r.stdout)])
    else if pyEqStr action "images" then
      eSeq (runCheckS env ["docker", "images"] none) (fun r =>
        retE [("status", PyVal.str "success"), ("output", PyVal.str r.stdout)])
    else if pyEqStr action "run" then
      if !pyTruthy image then
        retE (errDict "Image name is required for run action")
      else
        match dockerRunCmd container image ports penv command with
        | Except.error e => throwE e
        | Except.ok cmd =>
          eSeq (runCheck env cmd none) (fun r =>
            retE [("status", PyVal.str "success"),
                  ("container_id", PyVal.str (pyStrip r.stdout))])
    else if pyEqStr action "stop" then
      if !pyTruthy container then
        retE (errDict "Container name/ID is required for stop action")
      else
        eSeq (runCheck env [PyVal.str "docker", PyVal.str "stop", container] none) (fun r =>
          retE [("status", PyVal.str "success"), ("output", PyVal.str r.stdout)])
    else if pyEqStr action "rm" then
      if !pyTruthy container then
        retE (errDict "Container name/ID is required for rm action")
      else
        eSeq (runCheck env [PyVal.str "docker", PyVal.str "rm", container] none) (fun r =>
          retE [("status", PyVal.str "success"), ("output", PyVal.str r.stdout)])
    else if pyEqStr action "logs" then
      if !pyTruthy container then
        retE (errDict "Container name/ID is required for logs action")
      else
        eSeq (runCheck env [PyVal.str "docker", PyVal.str "logs", container] none) (fun r =>
          retE [("status", PyVal.str "success"), ("logs", PyVal.str r.stdout)])
    else retE (errDict ("Unknown Docker action: " ++ pyStrOf action)))

/-- The name → argv-prefix table of `Codex.install_package`. -/
def packageManagerCmd : String → Option (List String)
  | "pip" => some ["pip", "install"]
  | "npm" => some ["npm", "install", "-g"]
  | "brew" => some ["brew", "install"]
  | "gem" => some ["gem", "install"]
  | "apt" => some ["apt", "install", "-y"]
  | _ => none

/-- `Codex.install_package` (codex.py lines 467-487).  The manager lookup
happens before the `try`, so an unhashable manager raises out of the
handler; an unknown manager is a validation error with no spawn. -/
def install_package (env : Env) (package_name manager : PyVal) : EffM PyDict :=
  match manager with
  | PyVal.list _ => throwE (PyErr.typeError "unhashable type: list")
  | PyVal.dict _ => throwE (PyErr.typeError "unhashable type: dict")
  | _ =>
    match (match manager with
           | PyVal.str m => packageManagerCmd m
           | _ => none) with
    | none => retE (errDict ("Unknown package manager: " ++ pyStrOf manager))
    | some pfx =>
      let wrapped : EffM PyDict :=
        eSeq (runCheck env (pfx.map PyVal.str ++ [package_name]) none) (fun r =>
          retE [("status", PyVal.str "success"), ("output", PyVal.str r.stdout),
                ("message", PyVal.str ("Installed " ++ pyStrOf package_name ++
                  " using " ++ pyStrOf manager))])
      match wrapped with
      | (Except.error (PyErr.calledProcessError _ _ stderr), effs) =>
          (Except.ok (errDict ("Installation error: " ++ stderr)), effs)
      | (Except.error e, effs) => (Except.ok (errDict (pyErrStr e)), effs)
      | ok => ok

/-! ## Service discovery (`src/tools/docker_utils.py`)

The source also prints diagnostics (`print(f"Error getting ...")`) on the
swallowed-error paths; console diagnostics are not part of the returned
data and are not modelled. -/

/-- The `docker ps` command of `get_all_containers` for a given
`running_only` flag (docker_utils.py lines 14-16). -/
def psCmd (running_only : Bool) : List String :=
  if running_only then ["docker", "ps", "--format", "\x7b\x7bjson .\x7d\x7d"]
  else ["docker", "ps", "-a", "--format", "\x7b\x7bjson .\x7d\x7d"]

/-- `json.loads` applied to each non-empty stdout line (docker_utils.py
lines 21-23); a malformed line raises `JSONDecodeError`, which
`get_all_containers` does not catch. -/
def parseContainerLines (env : Env) : List String → Except PyErr (List PyVal)
  | [] => Except.ok []
  | l :: rest =>
    if l == "" then parseContainerLines env rest
    else
      match env.jsonLoads l with
      | Except.error m => Except.error (PyErr.jsonDecodeError m)
      | Except.ok v => (parseContainerLines env rest).map (fun vs => v :: vs)

/-- `get_all_containers` (docker_utils.py lines 12-27): list containers;
a `CalledProcessError` is swallowed into an empty list. -/
def get_all_containers (env : Env) (running_only : Bool) : EffM (List PyVal) :=
  match runCheckS env (psCmd running_only) none with
  | (Except.error (PyErr.calledProcessError _ _ _), effs) => (Except.ok [], effs)
  | (Except.error e, effs) => (Except.error e, effs)
  | (Except.ok r, effs) => (parseContainerLines env (pySplit (pyStrip r.stdout) "\n"), effs)

/-- The search loop of `get_container_by_name` (docker_utils.py lines
32-35); Python returns `None` when nothing matches. -/
def findByName (name : PyVal) : List PyVal → Except PyErr PyVal
  | [] => Except.ok PyVal.null
  | c :: rest =>
    match pyAttrGetD c "Names" PyVal.null with
    | Except.error e => Except.error e
    | Except.ok n => if pyEq n name then Except.ok c else findByName name rest

/-- `get_container_by_name` (docker_utils.py lines 29-35). -/
def get_container_by_name (env : Env) (name : PyVal) : EffM PyVal :=
  eSeq (get_all_containers env false) (fun cs => toEffM (findByName name cs))

/-- The `containerPort -> host:port` line parsing of `get_port_mappings`
(docker_utils.py lines 45-53), folding lines left to right into an
insertion-ordered mapping. -/
def buildPortMap (acc : List (String × String)) : List String → List (String × String)
  | [] => acc
  | l :: rest =>
    if l == "" then buildPortMap acc rest
    else
      match pySplit l " -> " with
      | [cport, hmap] => buildPortMap (dictInsert acc cport hmap) rest
      | _ => buildPortMap acc rest

/-- `get_port_mappings` (docker_utils.py lines 37-57): query
`docker container port`; a `CalledProcessError` is swallowed into an
empty mapping. -/
def get_port_mappings (env : Env) (container_id : PyVal) : EffM (List (String × String)) :=
  match runCheck env [PyVal.str "docker", PyVal.str "container", PyVal.str "port", container_id] none with
  | (Except.error (PyErr.calledProcessError _ _ _), effs) => (Except.ok [], effs)
  | (Except.error e, effs) => (Except.error e, effs)
  | (Except.ok r, effs) => (Except.ok (buildPortMap [] (pySplit (pyStrip r.stdout) "\n")), effs)

/-- `open_web_service` (docker_utils.py lines 59-76): resolve a service
name to a URL through the first port mapping and open a browser on it. -/
def open_web_service (env : Env) (service_name path : PyVal) : EffM PyDict :=
  eSeq (get_container_by_name env service_name) (fun container =>
    if !pyTruthy container then
      retE [("status", PyVal.str "error"),
            ("message", PyVal.str ("Service " ++ pyStrOf service_name ++ " not found"))]
    else
      eSeq (toEffM (pyAttrGetD container "ID" (PyVal.str ""))) (fun cid =>
        eSeq (get_port_mappings env cid) (fun pm =>
          if pm.isEmpty then
            retE [("status", PyVal.str "error"),
                  ("message", PyVal.str ("No port mappings for " ++ pyStrOf service_name))]
          else
            match pm with
            | (_, hm) :: _ =>
              eSeq (toEffM (unpack2 hm ":")) (fun hp =>
                let url := "http://" ++ hp.1 ++ ":" ++ hp.2 ++ pyStrOf path
                eSeq (emit (Effect.browserOpen url)) (fun _ =>
                  retE [("status", PyVal.str "success"),
                        ("message", PyVal.str ("Opened " ++ url)),
                        ("url", PyVal.str url)]))
            | [] => retE (errDict "Failed to find a valid port mapping"))))

/-- `open_webui_ui` (docker_utils.py lines 116-118). -/
def open_webui_ui (env : Env) : EffM PyDict :=
  open_web_service env (PyVal.str "open-webui") (PyVal.str "/")

/-- `open_flowise` (docker_utils.py lines 120-122). -/
def open_flowise (env : Env) : EffM PyDict :=
  open_web_service env (PyVal.str "flowise") (PyVal.str "/")

/-- The URL list built from a port mapping by `list_all_services`
(docker_utils.py lines 134-137); a host address that does not split as
`host:port` raises a `ValueError` from tuple unpacking. -/
def urlsOf : List (String × String) → Except PyErr (List String)
  | [] => Except.ok []
  | (_, hm) :: rest =>
    match unpack2 hm ":" with
    | Except.error e => Except.error e
    | Except.ok hp => (urlsOf rest).map (fun us => ("http://" ++ hp.1 ++ ":" ++ hp.2) :: us)

/-- The per-container record assembly of `list_all_services`
(docker_utils.py lines 129-145). -/
def servicesOf (env : Env) : List PyVal → EffM (List PyVal)
  | [] => retE []
  | c :: rest =>
    eSeq (toEffM (pyAttrGetD c "ID" (PyVal.str ""))) (fun cid =>
      eSeq (toEffM (pyAttrGetD c "Names" (PyVal.str ""))) (fun name =>
        eSeq (get_port_mappings env cid) (fun pm =>
          eSeq (toEffM (urlsOf pm)) (fun urls =>
            eSeq (toEffM (pyAttrGetD c "Status" (PyVal.str ""))) (fun status =>
              eSeq (servicesOf env rest) (fun svcs =>
                retE (PyVal.dict
                  [("name", name), ("id", cid), ("status", status),
                   ("ports", PyVal.dict (pm.map (fun kv => (kv.1, PyVal.str kv.2)))),
                   ("urls", PyVal.list (urls.map PyVal.str))] :: svcs)))))))

/-- `list_all_services` (docker_utils.py lines 124-147). -/
def list_all_services (env : Env) : EffM PyDict :=
  eSeq (get_all_containers env true) (fun cs =>
    eSeq (servicesOf env cs) (fun svcs =>
      retE [("status", PyVal.str "success"), ("services", PyVal.list svcs)]))

/-- `Codex.open_service` (codex.py lines 444-458). -/
def open_service (env : Env) (service_name path : PyVal) : EffM PyDict :=
  catchAllE (
    if pyEqStr service_name "webui" || pyEqStr service_name "open-webui" then
      open_webui_ui env
    else if pyEqStr service_name "flowise" then
      open_flowise env
    else if pyTruthy service_name then
      open_web_service env service_name path
    else list_all_services env)

/-- `Codex.list_services` (codex.py lines 460-465). -/
def list_services (env : Env) : EffM PyDict :=
  catchAllE (list_all_services env)

/-! ## Dispatcher-level invocation (`tool_func(**params)`)

Python binds the keyword mapping against each handler's signature: an
unexpected keyword or a missing required positional argument raises a
`TypeError` before the handler body runs (so before any external
action). -/

/-- A registered handler as the dispatcher sees it. -/
def Handler : Type := Kwargs → EffM PyDict

/-- The tool registry shape (`self.tools`). -/
def Registry : Type := String → Option Handler

/-- First keyword not among the declared parameter names, if any. -/
def unexpectedKey (allowed : List String) (kwargs : Kwargs) : Option String :=
  (kwargs.find? (fun kv => !allowed.contains kv.1)).map (fun kv => kv.1)

/-- Names of required parameters absent from the keyword mapping. -/
def missingKeys (required : List String) (kwargs : Kwargs) : List String :=
  required.filter (fun n => (argLookup kwargs n).isNone)

/-- Python call binding for `f(**kwargs)`: `TypeError` on an unexpected
keyword or a missing required positional argument (CPython quotes the
offending names; the quotes are omitted here). -/
def bindCheck (fname : String) (allowed required : List String) (kwargs : Kwargs) :
    Except PyErr Unit :=
  match unexpectedKey allowed kwargs with
  | some bad =>
      Except.error (PyErr.typeError (fname ++ "() got an unexpected keyword argument " ++ bad))
  | none =>
    match missingKeys required kwargs with
    | [] => Except.ok ()
    | miss =>
        Except.error (PyErr.typeError (fname ++ "() missing " ++ toString miss.length ++
          " required positional argument: " ++ String.intercalate ", " miss))

/-- Dispatch `shell_command(command)`. -/
def invoke_shell_command (env : Env) (kwargs : Kwargs) : EffM PyDict :=
  match bindCheck "shell_command" ["command"] ["command"] kwargs with
  | Except.error e => throwE e
  | Except.ok _ => shell_command env (argGetD kwargs "command" PyVal.null)

/-- Dispatch `file_operations(operation, path, content=None)`. -/
def invoke_file_operations (env : Env) (kwargs : Kwargs) : EffM PyDict :=
  match bindCheck "file_operations" ["operation", "path", "content"] ["operation", "path"] kwargs with
  | Except.error e => throwE e
  | Except.ok _ =>
      file_operations env (argGetD kwargs "operation" PyVal.null)
        (argGetD kwargs "path" PyVal.null) (argGetD kwargs "content" PyVal.null)

/-- Dispatch `search_docs(query)`. -/
def invoke_search_docs (env : Env) (kwargs : Kwargs) : EffM PyDict :=
  match bindCheck "search_docs" ["query"] ["query"] kwargs with
  | Except.error e => throwE e
  | Except.ok _ => search_docs env (argGetD kwargs "query" PyVal.null)

/-- Dispatch `code_completion(code, language="python")`. -/
def invoke_code_completion (env : Env) (kwargs : Kwargs) : EffM PyDict :=
  match bindCheck "code_completion" ["code", "language"] ["code"] kwargs with
  | Except.error e => throwE e
  | Except.ok _ =>
      code_completion env (argGetD kwargs "code" PyVal.null)
        (argGetD kwargs "language" (PyVal.str "python"))

/-- Dispatch `web_browse(url, action="open")`. -/
def invoke_web_browse (env : Env) (kwargs : Kwargs) : EffM PyDict :=
  match bindCheck "web_browse" ["url", "action"] ["url"] kwargs with
  | Except.error e => throwE e
  | Except.ok _ =>
      web_browse env (argGetD kwargs "url" PyVal.null)
        (argGetD kwargs "action" (PyVal.str "open"))

/-- Dispatch `code_generation(description, language="python", file_path=None)`. -/
def invoke_code_generation (env : Env) (kwargs : Kwargs) : EffM PyDict :=
  match bindCheck "code_generation" ["description", "language", "file_path"] ["description"] kwargs with
  | Except.error e => throwE e
  | Except.ok _ =>
      code_generation env (argGetD kwargs "description" PyVal.null)
        (argGetD kwargs "language" (PyVal.str "python"))
        (argGetD kwargs "file_path" PyVal.null)

/-- Dispatch `vscode(path=None, new_window=False)`. -/
def invoke_vscode (env : Env) (kwargs : Kwargs) : EffM PyDict :=
  match bindCheck "vscode" ["path", "new_window"] [] kwargs with
  | Except.error e => throwE e
  | Except.ok _ =>
      vscode env (argGetD kwargs "path" PyVal.null)
        (argGetD kwargs "new_window" (PyVal.bool false))

/-- Dispatch `github_operations(action, repo_path=None, remote_url=None,
branch=None, commit_message=None)` (registered as "github"). -/
def invoke_github (env : Env) (kwargs : Kwargs) : EffM PyDict :=
  match bindCheck "github_operations"
      ["action", "repo_path", "remote_url", "branch", "commit_message"] ["action"] kwargs with
  | Except.error e => throwE e
  | Except.ok _ =>
      github_operations env (argGetD kwargs "action" PyVal.null)
        (argGetD kwargs "repo_path" PyVal.null) (argGetD kwargs "remote_url" PyVal.null)
        (argGetD kwargs "branch" PyVal.null) (argGetD kwargs "commit_message" PyVal.null)

/-- Dispatch `huggingface_operations(action, model_id=None, task=None,
inputs=None)` (registered as "huggingface"). -/
def invoke_huggingface (env : Env) (kwargs : Kwargs) : EffM PyDict :=
  match bindCheck "huggingface_operations"
      ["action", "model_id", "task", "inputs"] ["action"] kwargs with
  | Except.error e => throwE e
  | Except.ok _ =>
      huggingface_operations env (argGetD kwargs "action" PyVal.null)
        (argGetD kwargs "model_id" PyVal.null) (argGetD kwargs "task" PyVal.null)
        (argGetD kwargs "inputs" PyVal.null)

/-- Dispatch `docker_operations(action, container=None, image=None,
ports=None, env=None, command=None)` (registered as "docker"). -/
def invoke_docker (env : Env) (kwargs : Kwargs) : EffM PyDict :=
  match bindCheck "docker_operations"
      ["action", "container", "image", "ports", "env", "command"] ["action"] kwargs with
  | Except.error e => throwE e
  | Except.ok _ =>
      docker_operations env (argGetD kwargs "action" PyVal.null)
        (argGetD kwargs "container" PyVal.null) (argGetD kwargs "image" PyVal.null)
        (argGetD kwargs "ports" PyVal.null) (argGetD kwargs "env" PyVal.null)
        (argGetD kwargs "command" PyVal.null)

/-- Dispatch `install_package(package_name, manager="pip")`. -/
def invoke_install_package (env : Env) (kwargs : Kwargs) : EffM PyDict :=
  match bindCheck "install_package" ["package_name", "manager"] ["package_name"] kwargs with
  | Except.error e => throwE e
  | Except.ok _ =>
      install_package env (argGetD kwargs "package_name" PyVal.null)
        (argGetD kwargs "manager" (PyVal.str "pip"))

/-- Dispatch `open_service(service_name=None, path="/")`. -/
def invoke_open_service (env : Env) (kwargs : Kwargs) : EffM PyDict :=
  match bindCheck "open_service" ["service_name", "path"] [] kwargs with
  | Except.error e => throwE e
  | Except.ok _ =>
      open_service env (argGetD kwargs "service_name" PyVal.null)
        (argGetD kwargs "path" (PyVal.str "/"))

/-- Dispatch `list_services()`. -/
def invoke_list_services (env : Env) (kwargs : Kwargs) : EffM PyDict :=
  match bindCheck "list_services" [] [] kwargs with
  | Except.error e => throwE e
  | Except.ok _ => list_services env

/-- `self.tools` (codex.py lines 44-58): the fixed name → handler map. -/
def codexTools (env : Env) : Registry := fun name =>
  if name == "file_operations" then some (invoke_file_operations env)
  else if name == "shell_command" then some (invoke_shell_command env)
  else if name == "search_docs" then some (invoke_search_docs env)
  else if name == "code_completion" then some (invoke_code_completion env)
  else if name == "web_browse" then some (invoke_web_browse env)
  else if name == "code_generation" then some (invoke_code_generation env)
  else if name == "vscode" then some (invoke_vscode env)
  else if name == "github" then some (invoke_github env)
  else if name == "huggingface" then some (invoke_huggingface env)
  else if name == "docker" then some (invoke_docker env)
  else if name == "install_package" then some (invoke_install_package env)
  else if name == "open_service" then some (invoke_open_service env)
  else if name == "list_services" then some (invoke_list_services env)
  else none

/-! ## Response parser / dispatcher (`Codex.process_request`, lines 554-622)

The loop over `re.findall`-extracted fenced blocks is modelled over the
extracted block list; the `re` operations themselves (block extraction and
stripping) are external inputs.  Everything the loop prints becomes a
`Report`, in print order. -/

/-- One user-visible output of the dispatcher, in order of printing. -/
inductive Report : Type
  | executing (name : String)
  | toolResult (name : String) (result : PyDict)
  | unknownTool (raw : String)
  | parseError (raw : String)
  | narrative (text : String)
  | topError (msg : String)

/-- `x in self.tools` followed by `self.tools[x]`: dict membership hashes
the key (`TypeError` for unhashable values), and only string keys can be
registry names. -/
def hashLookup (tv : PyVal) (reg : Registry) :
    Except PyErr (Option (String × Handler)) :=
  match tv with
  | PyVal.list _ => Except.error (PyErr.typeError "unhashable type: list")
  | PyVal.dict _ => Except.error (PyErr.typeError "unhashable type: dict")
  | PyVal.str s => Except.ok ((reg s).map (fun h => (s, h)))
  | _ => Except.ok none

/-- The body of the `for json_str in json_matches:` loop for one block
(codex.py lines 591-602).  The inner `try` catches only
`json.JSONDecodeError`; any other exception escapes (third component). -/
def processBlock (env : Env) (reg : Registry) (b : String) :
    List Report × List Effect × Option PyErr :=
  match env.jsonLoads b with
  | Except.error _ => ([Report.parseError b], [], none)
  | Except.ok v =>
    match pyIn "tool" v with
    | Except.error e => ([], [], some e)
    | Except.ok false => ([Report.unknownTool b], [], none)
    | Except.ok true =>
      match pyIndex v "tool" with
      | Except.error e => ([], [], some e)
      | Except.ok tv =>
        match hashLookup tv reg with
        | Except.error e => ([], [], some e)
        | Except.ok none => ([Report.unknownTool b], [], none)
        | Except.ok (some (name, h)) =>
          match dictGetD v "params" (PyVal.dict []) with
          | PyVal.dict kvs =>
            match h kvs with
            | (Except.error e, effs) => ([Report.executing name], effs, some e)
            | (Except.ok res, effs) =>
                ([Report.executing name, Report.toolResult name res], effs, none)
          | _ => ([Report.executing name], [],
                  some (PyErr.typeError "argument after ** must be a mapping"))

/-- The whole block loop: blocks are processed in order; an escaping
exception abandons the remaining blocks. -/
def processBlocks (env : Env) (reg : Registry) :
    List String → List Report × List Effect × Option PyErr
  | [] => ([], [], none)
  | b :: rest =>
    match processBlock env reg b with
    | (rs, effs, some e) => (rs, effs, some e)
    | (rs, effs, none) =>
      match processBlocks env reg rest with
      | (rs2, effs2, err2) => (rs ++ rs2, effs ++ effs2, err2)

/-- The reply-processing core of `Codex.process_request` (codex.py lines
584-622): `content` is the model reply, `blocks` the `re.findall`
extraction of its fenced json blocks, and `clean` the
`re.sub(...).strip()` remainder (the `re` library is external).  The
outer `except Exception` converts an escaped exception into a printed
top-level error, skipping the narrative. -/
def processReply (env : Env) (reg : Registry) (content : String)
    (blocks : List String) (clean : String) : List Report × List Effect :=
  if strContainsSub content "```json" then
    match processBlocks env reg blocks with
    | (rs, effs, some e) => (rs ++ [Report.topError (pyErrStr e)], effs)
    | (rs, effs, none) =>
      if clean == "" then (rs, effs)
      else (rs ++ [Report.narrative clean], effs)
  else ([Report.narrative content], [])

/-- `true` exactly on reports of a returned ToolResult. -/
def isToolResultR : Report → Bool
  | Report.toolResult _ _ => true
  | _ => false

/-- `true` exactly on per-block parse-error or unknown-tool reports. -/
def isParseOrUnknownR : Report → Bool
  | Report.parseError _ => true
  | Report.unknownTool _ => true
  | _ => false

/-- Refinement-side definition following the claim wording of C4: the
block parses successfully as JSON and its `tool` field names a registered
tool.  (Written from the specification sentence, for comparison with the
code's behaviour.) -/
def specBlockInvokes (env : Env) (reg : Registry) (b : String) : Bool :=
  match env.jsonLoads b with
  | Except.error _ => false
  | Except.ok v =>
    match v with
    | PyVal.dict kvs =>
      match lookupKV kvs "tool" with
      | some (PyVal.str s) => (reg s).isSome
      | _ => false
    | _ => false

/-- The shapes of parsed mapping blocks on which the dispatcher reports
"unknown tool": the `tool` key is absent, or holds a hashable value that
is not a registered name. -/
def unknownToolShape (reg : Registry) (kvs : List (String × PyVal)) : Bool :=
  match lookupKV kvs "tool" with
  | none => true
  | some (PyVal.str s) => (reg s).isNone
  | some (PyVal.num _) => true
  | some (PyVal.bool _) => true
  | some PyVal.null => true
  | some (PyVal.list _) => false
  | some (PyVal.dict _) => false

/-! ## Concrete test fixtures

Fenced-block strings and small environments used by witnesses and
counterexamples.  `jsonStub` tabulates `json.loads` on exactly the inputs
these fixtures use (each row is the real `json.loads` result for that
string). -/

/-- A block naming a registered tool but supplying no arguments. -/
def blockShellMissing : String := "\x7b\"tool\": \"shell_command\", \"params\": \x7b\x7d\x7d"

/-- A well-formed call of the argument-less `list_services` tool. -/
def blockListServices : String := "\x7b\"tool\": \"list_services\", \"params\": \x7b\x7d\x7d"

/-- A block naming an unregistered tool. -/
def blockUnknownTool : String := "\x7b\"tool\": \"nope\"\x7d"

/-- A block that is not valid JSON. -/
def blockNotJson : String := "not json"

/-- A `docker ps --format` output line for one running container. -/
def containerLineSvc : String := "\x7b\"ID\": \"abc123\", \"Names\": \"svc\", \"Status\": \"Up\"\x7d"

/-- `json.loads` on the fixture strings. -/
def jsonStub : String → Except String PyVal := fun s =>
  if s == blockShellMissing then
    Except.ok (PyVal.dict [("tool", PyVal.str "shell_command"), ("params", PyVal.dict [])])
  else if s == blockListServices then
    Except.ok (PyVal.dict [("tool", PyVal.str "list_services"), ("params", PyVal.dict [])])
  else if s == blockUnknownTool then
    Except.ok (PyVal.dict [("tool", PyVal.str "nope")])
  else if s == "5" then Except.ok (PyVal.num 5)
  else if s == containerLineSvc then
    Except.ok (PyVal.dict
      [("ID", PyVal.str "abc123"), ("Names", PyVal.str "svc"), ("Status", PyVal.str "Up")])
  else Except.error "Expecting value: line 1 column 1 (char 0)"

/-- A world in which the Docker daemon is down (every spawn exits 1), the
network is unreachable, and the filesystem is empty. -/
def envStub : Env where
  jsonLoads := jsonStub
  runProc := fun _ => Except.ok ⟨1, "", "Cannot connect to the Docker daemon"⟩
  runShell := fun _ => Except.ok ⟨0, "", ""⟩
  fetch := fun _ => Except.error "connection refused"
  chatComplete := fun _ _ => Except.error "api error"
  hfAvailable := false
  hfSearch := fun _ _ => Except.error "api error"
  hfDownload := fun _ => Except.error "api error"
  hfInference := fun _ _ => Except.error "api error"
  readText := fun _ => Except.error "No such file or directory"
  writeText := fun _ _ => Except.ok ()
  mkdirParents := fun _ => Except.ok ()
  iterdir := fun _ => Except.error "No such file or directory"
  copy2 := fun _ _ => Except.ok ()
  unlink := fun _ => Except.ok ()
  rmtree := fun _ => Except.ok ()
  isFile := fun _ => false
  isDir := fun _ => false
  pathExists := fun _ => false
  parent := fun _ => "/tmp"
  extractCodeBlocks := fun _ => []
  workspacePath := "/workspace"

/-- A world with a working container runtime but no containers at all. -/
def envNoContainers : Env := { envStub with runProc := fun _ => Except.ok ⟨0, "", ""⟩ }

/-- A world with one running container named `svc` that publishes no
port. -/
def envSvcNoPorts : Env :=
  { envStub with runProc := fun cmd =>
      if cmd == psCmd false then Except.ok ⟨0, containerLineSvc, ""⟩
      else Except.ok ⟨0, "", ""⟩ }

/-- A world with one running container whose single published port is
bound on the IPv6 wildcard, as `docker container port` really prints it. -/
def envSvcV6Port : Env :=
  { envStub with runProc := fun cmd =>
      if cmd == psCmd true then Except.ok ⟨0, containerLineSvc, ""⟩
      else Except.ok ⟨0, "443/tcp -> [::]:8080", ""⟩ }

/-- A page body whose extracted text is 5001 characters long. -/
def longText : String := String.mk (List.replicate 5001 'a')

/-- A world serving one long page and one short page. -/
def envFetch : Env :=
  { envStub with fetch := fun u =>
      if u == "http://long.example" then Except.ok ⟨longText, none⟩
      else Except.ok ⟨"hello world", some "Example"⟩ }

/-! ## Claim theorems -/

/-- Claim C10: for every path that exists as neither a regular file nor a
directory, `file_operations` with `operation="delete"` returns
`status=success` and attempts no removal — deleting a nonexistent path is
reported as success, not as an error. -/
theorem claim_C10 (env : Env) (p : String) (content : PyVal)
    (hf : env.isFile p = false) (hd : env.isDir p = false) :
    file_operations env (PyVal.str "delete") (PyVal.str p) content =
      (Except.ok [("status", PyVal.str "success")], []) := by
  simp [file_operations, pyEqStr, hf, hd, retE]

/-- Witness for C10 at the concrete path `/nope` in `envStub`. -/
theorem claim_C10_witness :
    envStub.isFile "/nope" = false ∧ envStub.isDir "/nope" = false ∧
    file_operations envStub (PyVal.str "delete") (PyVal.str "/nope") PyVal.null =
      (Except.ok [("status", PyVal.str "success")], []) :=
  ⟨rfl, rfl, claim_C10 envStub "/nope" PyVal.null rfl rfl⟩

/-- The `run` action's image validation happens before any command is
assembled or any process is spawned (codex.py lines 382-385). -/
theorem docker_run_missing_image (env : Env) (container image ports penv command : PyVal)
    (himg : pyTruthy image = false) :
    docker_operations env (PyVal.str "run") container image ports penv command =
      (Except.ok (errDict "Image name is required for run action"), []) := by
  simp [docker_operations, dockerWrap, pyEqStr, himg, retE]

/-- Claim C7: `docker_operations` with `action="run"` and a missing (or
falsy) image returns `status=error` naming the missing image, with no
process spawned and no command line built; the same holds through the
dispatcher-level keyword binding when no `image` key is supplied. -/
theorem claim_C7 :
    (∀ (env : Env) (container image ports penv command : PyVal),
        pyTruthy image = false →
        docker_operations env (PyVal.str "run") container image ports penv command =
          (Except.ok (errDict "Image name is required for run action"), []))
    ∧ (∀ (env : Env) (kwargs : Kwargs),
        kwargs.all (fun kv =>
          ["action", "container", "image", "ports", "env", "command"].contains kv.1) = true →
        argLookup kwargs "action" = some (PyVal.str "run") →
        argLookup kwargs "image" = none →
        invoke_docker env kwargs =
          (Except.ok (errDict "Image name is required for run action"), [])) := by
  constructor
  · intro env container image ports penv command himg
    exact docker_run_missing_image env container image ports penv command himg
  · intro env kwargs hall hact himg
    have hu : unexpectedKey ["action", "container", "image", "ports", "env", "command"] kwargs = none := by
      unfold unexpectedKey
      rw [List.find?_eq_none.2]
      · rfl
      · intro kv hkv
        have := (List.all_eq_true.1 hall) kv hkv
        simp_all
    have hm : missingKeys ["action"] kwargs = [] := by
      simp [missingKeys, hact]
    have hga : argGetD kwargs "action" PyVal.null = PyVal.str "run" := by
      simp [argGetD, hact]
    have hgi : argGetD kwargs "image" PyVal.null = PyVal.null := by
      simp [argGetD, himg]
    unfold invoke_docker bindCheck
    rw [hu, hm, hga, hgi]
    exact docker_run_missing_image env _ PyVal.null _ _ _ rfl

/-- Witness for C7: a concrete call with `action="run"` and no image key
in the argument mapping. -/
theorem claim_C7_witness :
    pyTruthy PyVal.null = false ∧
    docker_operations envStub (PyVal.str "run") PyVal.null PyVal.null PyVal.null PyVal.null PyVal.null =
      (Except.ok (errDict "Image name is required for run action"), []) ∧
    invoke_docker envStub [("action", PyVal.str "run")] =
      (Except.ok (errDict "Image name is required for run action"), []) :=
  ⟨rfl,
   claim_C7.1 envStub PyVal.null PyVal.null PyVal.null PyVal.null PyVal.null rfl,
   claim_C7.2 envStub [("action", PyVal.str "run")] rfl rfl rfl⟩

/-- Claim C6: a web fetch whose extracted text is strictly longer than
5000 characters returns the first 5000 characters followed by the literal
truncation marker; a fetch at or under 5000 characters returns the text
unmodified. -/
theorem claim_C6 :
    (∀ (env : Env) (u : String) (page : FetchPage),
        env.fetch u = Except.ok page → 5000 < page.text.length →
        web_browse env (PyVal.str u) (PyVal.str "fetch") =
          (Except.ok [("status", PyVal.str "success"),
                      ("content", PyVal.str (page.text.take 5000 ++ "... [content truncated]")),
                      ("title", PyVal.str (page.title.getD ""))],
           [Effect.httpGet u]))
    ∧ (∀ (env : Env) (u : String) (page : FetchPage),
        env.fetch u = Except.ok page → page.text.length ≤ 5000 →
        web_browse env (PyVal.str u) (PyVal.str "fetch") =
          (Except.ok [("status", PyVal.str "success"),
                      ("content", PyVal.str page.text),
                      ("title", PyVal.str (page.title.getD ""))],
           [Effect.httpGet u])) := by
  constructor
  · intro env u page hfetch hlen
    simp [web_browse, catchAllE, pyEqStr, hfetch, hlen, eSeq, emit, retE]
  · intro env u page hfetch hlen
    simp [web_browse, catchAllE, pyEqStr, hfetch, Nat.not_lt.2 hlen, eSeq, emit, retE]

/-- Witness for C6: a 5001-character page is truncated with the marker and
an 11-character page is returned unmodified, in `envFetch`. -/
theorem claim_C6_witness :
    (5000 < longText.length ∧
      web_browse envFetch (PyVal.str "http://long.example") (PyVal.str "fetch") =
        (Except.ok [("status", PyVal.str "success"),
                    ("content", PyVal.str (longText.take 5000 ++ "... [content truncated]")),
                    ("title", PyVal.str "")],
         [Effect.httpGet "http://long.example"]))
    ∧ ((("hello world" : String).length ≤ 5000) ∧
      web_browse envFetch (PyVal.str "http://short.example") (PyVal.str "fetch") =
        (Except.ok [("status", PyVal.str "success"),
                    ("content", PyVal.str "hello world"),
                    ("title", PyVal.str "Example")],
         [Effect.httpGet "http://short.example"])) := by
  have hlen : longText.length = 5001 := by
    show (List.replicate 5001 'a').length = 5001
    exact List.length_replicate 5001 'a'
  constructor
  · exact ⟨by rw [hlen]; norm_num,
      claim_C6.1 envFetch "http://long.example" ⟨longText, none⟩ rfl (by rw [hlen]; norm_num)⟩
  · exact ⟨by decide,
      claim_C6.2 envFetch "http://short.example" ⟨"hello world", some "Example"⟩ rfl (by decide)⟩

/-- Claim C8: a service-discovery query for a name with no matching
container yields `status=error` naming the service as not found; a
matched container with no port mappings yields a distinct `status=error`
naming the absence of ports; the two messages are never equal. -/
theorem claim_C8 :
    (∀ (env : Env) (name path : PyVal) (effs : List Effect),
        get_container_by_name env name = (Except.ok PyVal.null, effs) →
        open_web_service env name path =
          (Except.ok [("status", PyVal.str "error"),
                      ("message", PyVal.str ("Service " ++ pyStrOf name ++ " not found"))],
           effs))
    ∧ (∀ (env : Env) (name path c cid : PyVal) (effs1 effs2 : List Effect),
        get_container_by_name env name = (Except.ok c, effs1) →
        pyTruthy c = true →
        pyAttrGetD c "ID" (PyVal.str "") = Except.ok cid →
        get_port_mappings env cid = (Except.ok [], effs2) →
        open_web_service env name path =
          (Except.ok [("status", PyVal.str "error"),
                      ("message", PyVal.str ("No port mappings for " ++ pyStrOf name))],
           effs1 ++ effs2))
    ∧ (∀ s : String, ("Service " ++ s ++ " not found") ≠ ("No port mappings for " ++ s)) := by
  refine ⟨?_, ?_, ?_⟩
  · intro env name path effs hname
    simp [open_web_service, eSeq, hname, pyTruthy, retE]
  · intro env name path c cid effs1 effs2 hname htr hid hpm
    simp [open_web_service, eSeq, hname, htr, toEffM, hid, hpm, retE, List.isEmpty]
  · intro s h
    have hlen := congrArg String.length h
    rw [String.length_append, String.length_append, String.length_append] at hlen
    have h1 : ("Service " : String).length = 8 := rfl
    have h2 : (" not found" : String).length = 10 := rfl
    have h3 : ("No port mappings for " : String).length = 21 := rfl
    omega

/-- Witness for C8: in `envNoContainers` the query for `svc` reports the
service as not found; in `envSvcNoPorts` the found container has no port
mapping and the distinct no-ports message is reported. -/
theorem claim_C8_witness :
    (open_web_service envNoContainers (PyVal.str "svc") (PyVal.str "/") =
      (Except.ok [("status", PyVal.str "error"),
                  ("message", PyVal.str ("Service " ++ pyStrOf (PyVal.str "svc") ++ " not found"))],
       [Effect.spawn (psCmd false) none]))
    ∧ (open_web_service envSvcNoPorts (PyVal.str "svc") (PyVal.str "/") =
      (Except.ok [("status", PyVal.str "error"),
                  ("message", PyVal.str ("No port mappings for " ++ pyStrOf (PyVal.str "svc")))],
       [Effect.spawn (psCmd false) none] ++
         [Effect.spawn ["docker", "container", "port", "abc123"] none])) :=
  ⟨claim_C8.1 envNoContainers (PyVal.str "svc") (PyVal.str "/")
      [Effect.spawn (psCmd false) none] rfl,
   claim_C8.2.1 envSvcNoPorts (PyVal.str "svc") (PyVal.str "/")
      (PyVal.dict [("ID", PyVal.str "abc123"), ("Names", PyVal.str "svc"), ("Status", PyVal.str "Up")])
      (PyVal.str "abc123")
      [Effect.spawn (psCmd false) none]
      [Effect.spawn ["docker", "container", "port", "abc123"] none]
      rfl rfl rfl rfl⟩

/-- A required argument missing from the keyword mapping makes the call
binding raise a `TypeError` (no handler body runs, no effect occurs). -/
theorem bindCheck_missing (fname : String) (allowed required : List String)
    (kwargs : Kwargs) (n : String) (hn : n ∈ required) (h : argLookup kwargs n = none) :
    ∃ m, bindCheck fname allowed required kwargs = Except.error (PyErr.typeError m) := by
  unfold bindCheck
  cases hu : unexpectedKey allowed kwargs with
  | some bad => exact ⟨_, rfl⟩
  | none =>
    cases hm : missingKeys required kwargs with
    | nil =>
      exfalso
      have hmem : n ∈ missingKeys required kwargs :=
        List.mem_filter.2 ⟨hn, by simp [h]⟩
      rw [hm] at hmem
      exact absurd hmem (List.not_mem_nil n)
    | cons a l => exact ⟨_, rfl⟩

/-- Claim C1 counterexample: `shell_command` invoked with an empty
argument mapping does not return a `status=error` ToolResult — the call
binding raises a `TypeError` instead (though no external action occurs). -/
theorem claim_C1_counterexample :
    invoke_shell_command envStub [] =
      (Except.error (PyErr.typeError
        "shell_command() missing 1 required positional argument: command"), []) := rfl

/-- Claim C1 (amended): a missing required argument never triggers the
external action, but the reporting splits by where the requirement lives:
arguments required by the handler signature (`shell_command`'s `command`,
`file_operations`' `operation`/`path`) raise a `TypeError` at invocation
instead of returning a ToolResult, while arguments validated inside the
body (docker `stop`'s `container`, git `clone`'s remote URL, git
`commit`'s message) yield `status=error` naming the argument.  In every
case the effect trace is empty. -/
theorem claim_C1_amended :
    (∀ (env : Env) (kwargs : Kwargs), argLookup kwargs "command" = none →
        ∃ m, invoke_shell_command env kwargs = (Except.error (PyErr.typeError m), []))
    ∧ (∀ (env : Env) (kwargs : Kwargs),
        argLookup kwargs "operation" = none ∨ argLookup kwargs "path" = none →
        ∃ m, invoke_file_operations env kwargs = (Except.error (PyErr.typeError m), []))
    ∧ (∀ (env : Env) (container image ports penv command : PyVal),
        pyTruthy container = false →
        docker_operations env (PyVal.str "stop") container image ports penv command =
          (Except.ok (errDict "Container name/ID is required for stop action"), []))
    ∧ (∀ (env : Env) (repo_path remote_url branch commit_message : PyVal),
        pyTruthy remote_url = false →
        github_operations env (PyVal.str "clone") repo_path remote_url branch commit_message =
          (Except.ok (errDict "Remote URL is required for clone action"), []))
    ∧ (∀ (env : Env) (repo_path remote_url branch commit_message : PyVal),
        pyTruthy commit_message = false →
        github_operations env (PyVal.str "commit") repo_path remote_url branch commit_message =
          (Except.ok (errDict "Commit message is required"), [])) := by
  refine ⟨?_, ?_, ?_, ?_, ?_⟩
  · intro env kwargs h
    obtain ⟨m, hb⟩ := bindCheck_missing "shell_command" ["command"] ["command"] kwargs
      "command" (by simp) h
    exact ⟨m, by simp [invoke_shell_command, hb, throwE]⟩
  · intro env kwargs h
    have : ∃ m, bindCheck "file_operations" ["operation", "path", "content"]
        ["operation", "path"] kwargs = Except.error (PyErr.typeError m) := by
      rcases h with h | h
      · exact bindCheck_missing _ _ _ kwargs "operation" (by simp) h
      · exact bindCheck_missing _ _ _ kwargs "path" (by simp) h
    obtain ⟨m, hb⟩ := this
    exact ⟨m, by simp [invoke_file_operations, hb, throwE]⟩
  · intro env container image ports penv command hc
    simp [docker_operations, dockerWrap, pyEqStr, hc, retE]
  · intro env repo_path remote_url branch commit_message hr
    simp [github_operations, githubWrap, pyEqStr, hr, retE]
  · intro env repo_path remote_url branch commit_message hm
    simp [github_operations, githubWrap, pyEqStr, hm, retE]

/-- Witness for C1 (amended) at concrete inputs for each conjunct. -/
theorem claim_C1_witness :
    (∃ m, invoke_shell_command envStub [("other", PyVal.null)] =
        (Except.error (PyErr.typeError m), []))
    ∧ (∃ m, invoke_file_operations envStub [("operation", PyVal.str "read")] =
        (Except.error (PyErr.typeError m), []))
    ∧ docker_operations envStub (PyVal.str "stop") PyVal.null PyVal.null PyVal.null PyVal.null PyVal.null =
        (Except.ok (errDict "Container name/ID is required for stop action"), [])
    ∧ github_operations envStub (PyVal.str "clone") PyVal.null PyVal.null PyVal.null PyVal.null =
        (Except.ok (errDict "Remote URL is required for clone action"), [])
    ∧ github_operations envStub (PyVal.str "commit") PyVal.null PyVal.null PyVal.null PyVal.null =
        (Except.ok (errDict "Commit message is required"), []) :=
  ⟨claim_C1_amended.1 envStub [("other", PyVal.null)] rfl,
   claim_C1_amended.2.1 envStub [("operation", PyVal.str "read")] (Or.inr rfl),
   claim_C1_amended.2.2.1 envStub PyVal.null PyVal.null PyVal.null PyVal.null PyVal.null rfl,
   claim_C1_amended.2.2.2.1 envStub PyVal.null PyVal.null PyVal.null PyVal.null rfl,
   claim_C1_amended.2.2.2.2 envStub PyVal.null PyVal.null PyVal.null PyVal.null rfl⟩

/-- The reply that carries a raising call followed by a well-formed one. -/
def contentTwoBlocks : String :=
  "Run these. ```json\n" ++ blockShellMissing ++ "\n``` then ```json\n" ++
    blockListServices ++ "\n```"

/-- Claim C2 counterexample: a handler exception (the `TypeError` from a
missing required argument) is not converted into a `status=error`
ToolResult at the dispatcher layer — the turn ends in a top-level error
report and the second, well-formed block is never processed. -/
theorem claim_C2_counterexample :
    processReply envStub (codexTools envStub) contentTwoBlocks
        [blockShellMissing, blockListServices] "Run these.  then" =
      ([Report.executing "shell_command",
        Report.topError "shell_command() missing 1 required positional argument: command"],
       []) := rfl

/-- Claim C2 (amended): an exception escaping a handler invocation is
caught only at the top level of request processing: it is not converted
into a ToolResult; the remaining blocks and the narrative are abandoned
and a single top-level error is printed, while the function still returns
normally (so subsequent turns continue). -/
theorem claim_C2_amended (env : Env) (reg : Registry) (content : String)
    (b : String) (rest : List String) (clean : String)
    (rs : List Report) (effs : List Effect) (e : PyErr)
    (hfence : strContainsSub content "```json" = true)
    (hb : processBlock env reg b = (rs, effs, some e)) :
    processReply env reg content (b :: rest) clean =
      (rs ++ [Report.topError (pyErrStr e)], effs) := by
  simp [processReply, hfence, processBlocks, hb]

/-- Witness for C2 (amended) on the concrete two-block reply. -/
theorem claim_C2_witness :
    processBlock envStub (codexTools envStub) blockShellMissing =
      ([Report.executing "shell_command"], [],
       some (PyErr.typeError "shell_command() missing 1 required positional argument: command"))
    ∧ processReply envStub (codexTools envStub) contentTwoBlocks
        [blockShellMissing, blockListServices] "Run these.  then" =
      ([Report.executing "shell_command"] ++
        [Report.topError (pyErrStr (PyErr.typeError
          "shell_command() missing 1 required positional argument: command"))],
       []) :=
  ⟨rfl,
   claim_C2_amended envStub (codexTools envStub) contentTwoBlocks blockShellMissing
     [blockListServices] "Run these.  then" [Report.executing "shell_command"] []
     (PyErr.typeError "shell_command() missing 1 required positional argument: command")
     rfl rfl⟩

/-- Claim C3 counterexample: the block `5` parses successfully as JSON and
has no `tool` field, yet the dispatcher does not report an unknown tool —
the membership test `"tool" in 5` raises a `TypeError` that aborts the
turn. -/
theorem claim_C3_counterexample :
    processBlock envStub (codexTools envStub) "5" =
      ([], [], some (PyErr.typeError "argument of type int is not iterable")) := rfl

/-- Claim C3 (amended): for every parsed block whose value is a mapping
with the `tool` key absent, or holding a hashable value that is not a
registered tool name, the dispatcher reports an unknown tool and invokes
no handler (no other report, no effect, no exception); a parsed non-mapping
value can instead raise a `TypeError` that aborts the turn. -/
theorem claim_C3_amended (env : Env) (reg : Registry) (b : String)
    (kvs : List (String × PyVal))
    (hp : env.jsonLoads b = Except.ok (PyVal.dict kvs))
    (hs : unknownToolShape reg kvs = true) :
    processBlock env reg b = ([Report.unknownTool b], [], none) := by
  unfold processBlock
  rw [hp]
  unfold unknownToolShape at hs
  cases hk : lookupKV kvs "tool" with
  | none => simp [pyIn, hk]
  | some tv =>
    rw [hk] at hs
    cases tv with
    | str s =>
      have hreg : reg s = none := Option.isNone_iff_eq_none.1 hs
      simp [pyIn, pyIndex, hk, hashLookup, hreg]
    | num n => simp [pyIn, pyIndex, hk, hashLookup]
    | bool bb => simp [pyIn, pyIndex, hk, hashLookup]
    | null => simp [pyIn, pyIndex, hk, hashLookup]
    | list xs => exact absurd hs (by simp)
    | dict kvs2 => exact absurd hs (by simp)

/-- Witness for C3 (amended): a mapping block naming the unregistered
tool `nope` yields exactly one unknown-tool report. -/
theorem claim_C3_witness :
    envStub.jsonLoads blockUnknownTool = Except.ok (PyVal.dict [("tool", PyVal.str "nope")])
    ∧ unknownToolShape (codexTools envStub) [("tool", PyVal.str "nope")] = true
    ∧ processBlock envStub (codexTools envStub) blockUnknownTool =
        ([Report.unknownTool blockUnknownTool], [], none) :=
  ⟨rfl, rfl,
   claim_C3_amended envStub (codexTools envStub) blockUnknownTool
     [("tool", PyVal.str "nope")] rfl rfl⟩

/-- The reply whose narrative precedes a single well-formed block. -/
def contentNarrative : String := "Done. ```json\n" ++ blockListServices ++ "\n```"

/-- Claim C5 counterexample: for the reply `Done. <block>`, the tool's
result is printed before the stripped narrative, so the narrative is not
presented first as claimed — it comes last. -/
theorem claim_C5_counterexample :
    processReply envStub (codexTools envStub) contentNarrative [blockListServices] "Done." =
      ([Report.executing "list_services",
        Report.toolResult "list_services"
          [("status", PyVal.str "success"), ("services", PyVal.list [])],
        Report.narrative "Done."],
       [Effect.spawn (psCmd true) none])
    ∧ (processReply envStub (codexTools envStub) contentNarrative [blockListServices] "Done.").1.head? =
        some (Report.executing "list_services") := ⟨rfl, rfl⟩

/-- Claim C5 (amended): after all blocks are processed without an escaping
exception, the structured blocks are stripped and the remaining narrative
is presented last, after the tool reports (which appear in block order);
an empty narrative is omitted entirely. -/
theorem claim_C5_amended (env : Env) (reg : Registry) (content : String)
    (blocks : List String) (clean : String) (rs : List Report) (effs : List Effect)
    (hfence : strContainsSub content "```json" = true)
    (hok : processBlocks env reg blocks = (rs, effs, none)) :
    (clean ≠ "" → processReply env reg content blocks clean =
      (rs ++ [Report.narrative clean], effs))
    ∧ (clean = "" → processReply env reg content blocks clean = (rs, effs)) := by
  constructor
  · intro hne
    simp [processReply, hfence, hok, hne]
  · intro heq
    simp [processReply, hfence, hok, heq]

/-- Witness for C5 (amended) on the concrete one-block reply. -/
theorem claim_C5_witness :
    strContainsSub contentNarrative "```json" = true
    ∧ processReply envStub (codexTools envStub) contentNarrative [blockListServices] "Done." =
      ([Report.executing "list_services",
        Report.toolResult "list_services"
          [("status", PyVal.str "success"), ("services", PyVal.list [])]] ++
        [Report.narrative "Done."],
       [Effect.spawn (psCmd true) none]) :=
  ⟨rfl,
   (claim_C5_amended envStub (codexTools envStub) contentNarrative [blockListServices] "Done."
      [Report.executing "list_services",
       Report.toolResult "list_services"
         [("status", PyVal.str "success"), ("services", PyVal.list [])]]
      [Effect.spawn (psCmd true) none] rfl rfl).1 (by decide)⟩

/-- Claim C9 counterexample: with one running container whose published
port is bound on the IPv6 wildcard (`443/tcp -> [::]:8080`, as
`docker container port` really prints), `list_all_services` does not
return `status=success` — the `host, port` tuple unpacking raises a
`ValueError` that escapes the operation. -/
theorem claim_C9_counterexample :
    list_all_services envSvcV6Port =
      (Except.error (PyErr.valueError "too many values to unpack (expected 2)"),
       [Effect.spawn (psCmd true) none,
        Effect.spawn ["docker", "container", "port", "abc123"] none]) := rfl

/-- Claim C9 (amended): when the container-runtime query fails (the
`docker ps` spawn exits non-zero), the failure is swallowed and the
service-listing operation returns `status=success` with an empty service
list — literally the same result as a healthy runtime that lists no
containers, so the caller cannot distinguish "runtime unavailable" from
"no services running".  The operation does not, however, always return
`status=success`: a discovered port mapping whose host address does not
split as exactly `host:port` raises a `ValueError` that escapes the
operation instead of returning a result (the counterexample above). -/
theorem claim_C9_amended (env1 env2 : Env) (r1 r2 : ProcResult)
    (h1 : env1.runProc (psCmd true) = Except.ok r1) (hc1 : r1.returncode ≠ 0)
    (h2 : env2.runProc (psCmd true) = Except.ok r2) (hc2 : r2.returncode = 0)
    (hs2 : pyStrip r2.stdout = "") :
    list_all_services env1 = list_all_services env2
    ∧ list_all_services env1 =
        (Except.ok [("status", PyVal.str "success"), ("services", PyVal.list [])],
         [Effect.spawn (psCmd true) none]) := by
  have hb1 : (r1.returncode == 0) = false := by
    simp [hc1]
  have hb2 : (r2.returncode == 0) = true := by
    simp [hc2]
  have hgac1 : get_all_containers env1 true = (Except.ok [], [Effect.spawn (psCmd true) none]) := by
    unfold get_all_containers runCheckS
    simp [eSeq, emit, h1, hb1, throwE, retE]
  have hgac2 : get_all_containers env2 true = (Except.ok [], [Effect.spawn (psCmd true) none]) := by
    unfold get_all_containers runCheckS
    simp [eSeq, emit, h2, hb2, throwE, retE, hs2, pySplit, splitAuxF, parseContainerLines]
  constructor
  · unfold list_all_services
    rw [hgac1, hgac2]
    simp [eSeq, servicesOf, retE]
  · unfold list_all_services
    rw [hgac1]
    simp [eSeq, servicesOf, retE]

/-- Witness for C9 (amended): the dead-daemon world `envStub` (every
`docker` invocation exits 1) and the empty-but-healthy world
`envNoContainers` produce identical success results. -/
theorem claim_C9_witness :
    envStub.runProc (psCmd true) = Except.ok ⟨1, "", "Cannot connect to the Docker daemon"⟩
    ∧ envNoContainers.runProc (psCmd true) = Except.ok ⟨0, "", ""⟩
    ∧ list_all_services envStub = list_all_services envNoContainers
    ∧ list_all_services envStub =
        (Except.ok [("status", PyVal.str "success"), ("services", PyVal.list [])],
         [Effect.spawn (psCmd true) none]) :=
  ⟨rfl, rfl,
   (claim_C9_amended envStub envNoContainers ⟨1, "", "Cannot connect to the Docker daemon"⟩
      ⟨0, "", ""⟩ rfl (by decide) rfl rfl rfl).1,
   (claim_C9_amended envStub envNoContainers ⟨1, "", "Cannot connect to the Docker daemon"⟩
      ⟨0, "", ""⟩ rfl (by decide) rfl rfl rfl).2⟩

/-- Shape analysis of one block whose processing raises no exception: it
reports either an execution followed by a ToolResult (exactly when the
block parses to a mapping whose `tool` field names a registered tool), or
a single parse-error report, or a single unknown-tool report. -/
theorem processBlock_shape (env : Env) (reg : Registry) (b : String)
    (h : (processBlock env reg b).2.2 = none) :
    (specBlockInvokes env reg b = true ∧
      ∃ n r effs, processBlock env reg b =
        ([Report.executing n, Report.toolResult n r], effs, none))
    ∨ (specBlockInvokes env reg b = false ∧
        (processBlock env reg b = ([Report.parseError b], [], none)
         ∨ processBlock env reg b = ([Report.unknownTool b], [], none))) := by
  unfold processBlock at h
  unfold processBlock specBlockInvokes
  cases hj : env.jsonLoads b with
  | error m => simp [hj]
  | ok v =>
    cases v with
    | null => simp [hj, pyIn] at h
    | bool bb => simp [hj, pyIn] at h
    | num n => simp [hj, pyIn] at h
    | str s =>
      cases hc : strContainsSub s "tool" with
      | false => simp [hj, pyIn, hc]
      | true => simp [hj, pyIn, pyIndex, hc] at h
    | list xs =>
      cases hc : xs.any (fun x => match x with
          | PyVal.str s => s == "tool"
          | _ => false) with
      | false => simp [hj, pyIn, hc]
      | true => simp [hj, pyIn, pyIndex, hc] at h
    | dict kvs =>
      cases hk : lookupKV kvs "tool" with
      | none => simp [hj, pyIn, hk]
      | some tv =>
        cases tv with
        | list xs => simp [hj, pyIn, pyIndex, hashLookup, hk] at h
        | dict kvs2 => simp [hj, pyIn, pyIndex, hashLookup, hk] at h
        | num n => simp [hj, pyIn, pyIndex, hashLookup, hk]
        | bool bb => simp [hj, pyIn, pyIndex, hashLookup, hk]
        | null => simp [hj, pyIn, pyIndex, hashLookup, hk]
        | str s =>
          cases hr : reg s with
          | none => simp [hj, pyIn, pyIndex, hashLookup, hk, hr]
          | some hdl =>
            cases hp : dictGetD (PyVal.dict kvs) "params" (PyVal.dict []) with
            | dict kvs2 =>
              rcases hh : hdl kvs2 with ⟨res, effs⟩
              cases res with
              | error e =>
                simp [hj, pyIn, pyIndex, hashLookup, hk, hr, hp, hh] at h
              | ok resd =>
                left
                refine ⟨by simp [hj, hk, hr], s, resd, effs, ?_⟩
                simp [hj, pyIn, pyIndex, hashLookup, hk, hr, hp, hh]
            | null => simp [hj, pyIn, pyIndex, hashLookup, hk, hr, hp] at h
            | bool bb => simp [hj, pyIn, pyIndex, hashLookup, hk, hr, hp] at h
            | num n => simp [hj, pyIn, pyIndex, hashLookup, hk, hr, hp] at h
            | str s2 => simp [hj, pyIn, pyIndex, hashLookup, hk, hr, hp] at h
            | list xs => simp [hj, pyIn, pyIndex, hashLookup, hk, hr, hp] at h

/-- Claim C4 counterexample: a reply of two blocks that both parse
successfully and reference registered tools (M = 2) yields zero reported
ToolResults, because the first invocation raises and aborts the turn —
the remaining block is never processed. -/
theorem claim_C4_counterexample :
    [blockShellMissing, blockListServices].countP
        (specBlockInvokes envStub (codexTools envStub)) = 2
    ∧ (processBlocks envStub (codexTools envStub)
        [blockShellMissing, blockListServices]).1.countP isToolResultR = 0
    ∧ (processBlocks envStub (codexTools envStub)
        [blockShellMissing, blockListServices]).2.2.isSome = true := ⟨rfl, rfl, rfl⟩

/-- Claim C4 (amended): when no block's handler invocation raises, a reply
of N blocks of which M parse successfully and reference registered tools
yields exactly M ToolResults, in block order, and N − M parse-error or
unknown-tool reports; a parse failure of one block does not abort the
remaining blocks or the turn.  (A handler invocation that raises — e.g. on
a missing required argument — does abort the remaining blocks.) -/
theorem claim_C4_amended (env : Env) (reg : Registry) (blocks : List String)
    (h : ∀ b ∈ blocks, (processBlock env reg b).2.2 = none) :
    processBlocks env reg blocks =
      (blocks.flatMap (fun b => (processBlock env reg b).1),
       blocks.flatMap (fun b => (processBlock env reg b).2.1), none)
    ∧ (blocks.flatMap (fun b => (processBlock env reg b).1)).countP isToolResultR =
        blocks.countP (specBlockInvokes env reg)
    ∧ (blocks.flatMap (fun b => (processBlock env reg b).1)).countP isParseOrUnknownR =
        blocks.length - blocks.countP (specBlockInvokes env reg) := by
  induction blocks with
  | nil => simp [processBlocks]
  | cons b rest ih =>
    have hb := h b (List.mem_cons_self b rest)
    have hrest : ∀ x ∈ rest, (processBlock env reg x).2.2 = none :=
      fun x hx => h x (List.mem_cons_of_mem b hx)
    obtain ⟨ih1, ih2, ih3⟩ := ih hrest
    have hlen : rest.countP (specBlockInvokes env reg) ≤ rest.length :=
      List.countP_le_length (specBlockInvokes env reg)
    rcases processBlock_shape env reg b hb with ⟨hspec, n, r, effs, hpb⟩ | ⟨hspec, hpb | hpb⟩
    · refine ⟨?_, ?_, ?_⟩
      · simp [processBlocks, hpb, ih1]
      · simp [List.flatMap_cons, List.countP_append, List.countP_cons, hpb, hspec, ih2,
          isToolResultR]
      · simp [List.flatMap_cons, List.countP_append, List.countP_cons, hpb, hspec, ih3,
          isParseOrUnknownR]
        try omega
    · refine ⟨?_, ?_, ?_⟩
      · simp [processBlocks, hpb, ih1]
      · simp [List.flatMap_cons, List.countP_append, List.countP_cons, hpb, hspec, ih2,
          isToolResultR]
      · simp [List.flatMap_cons, List.countP_append, List.countP_cons, hpb, hspec, ih3,
          isParseOrUnknownR]
        try omega
    · refine ⟨?_, ?_, ?_⟩
      · simp [processBlocks, hpb, ih1]
      · simp [List.flatMap_cons, List.countP_append, List.countP_cons, hpb, hspec, ih2,
          isToolResultR]
      · simp [List.flatMap_cons, List.countP_append, List.countP_cons, hpb, hspec, ih3,
          isParseOrUnknownR]
        try omega

/-- The exception-free three-block reply used by the C4 witness: one
malformed block, one unknown tool, one well-formed call. -/
def blocksMixed : List String := [blockNotJson, blockUnknownTool, blockListServices]

/-- Witness for C4 (amended) on a concrete reply with N = 3 and M = 1:
one ToolResult, two parse/unknown reports, nothing aborted. -/
theorem claim_C4_witness :
    (∀ b ∈ blocksMixed, (processBlock envStub (codexTools envStub) b).2.2 = none)
    ∧ (blocksMixed.flatMap
        (fun b => (processBlock envStub (codexTools envStub) b).1)).countP isToolResultR =
      blocksMixed.countP (specBlockInvokes envStub (codexTools envStub))
    ∧ (blocksMixed.flatMap
        (fun b => (processBlock envStub (codexTools envStub) b).1)).countP isParseOrUnknownR =
      blocksMixed.length - blocksMixed.countP (specBlockInvokes envStub (codexTools envStub)) := by
  have hh : ∀ b ∈ blocksMixed, (processBlock envStub (codexTools envStub) b).2.2 = none := by
    intro b hb
    simp only [blocksMixed, List.mem_cons, List.not_mem_nil, or_false] at hb
    rcases hb with rfl | rfl | rfl <;> rfl
  exact ⟨hh, (claim_C4_amended envStub (codexTools envStub) blocksMixed hh).2.1,
    (claim_C4_amended envStub (codexTools envStub) blocksMixed hh).2.2⟩

end Ratlab
